import Mathlib

set_option autoImplicit false

/-!
Shallow embedding of the LiveUser presence hub (main.go).

The hub goroutine processes register/unregister commands sequentially, so the
structural operations `handleRegister`, `handleUnregister`, `broadcastToSite`,
`getSite` and the reader's per-frame join handling are modelled as sequential
state transformers on an explicit state.

Go pointers become heap ids: `Site` objects live in a heap `siteHeap : Nat →
Option Site` (a `*Site` is a `Nat`), the hub registry `sites map[string]*Site`
becomes `reg : String → Option Nat`, and `*Client` becomes a `Nat` indexing
`clients : Nat → Option Client`. A client's buffered channel `send chan
Message` is modelled as a bounded queue with a closed flag; a Go channel-send
on a closed channel and a `close` of a closed channel panic, which the model
renders as `Option` failure (`none` = runtime panic). The non-blocking
`select { case ch <- m: default: }` enqueues when the buffer has room,
panics when the channel is closed, and otherwise takes the default branch.
Go map iteration order is unspecified; the member set is kept as a `List Nat`
without duplicates and iterated in list order.
-/

/-- The wire `Message` struct of main.go (Type, SiteID, Count, Message,
Timestamp). Go `int`/`int64` are modelled as `Int`. -/
structure Message where
  type : String
  siteId : String
  count : Int
  message : String
  timestamp : Int
deriving DecidableEq, Repr

/-- A client's outbound channel `send chan Message`: bounded buffer plus a
closed flag (`make(chan Message, 16)` gives `cap = 16`). -/
structure SendQ where
  buf : List Message
  cap : Nat
  closed : Bool
deriving DecidableEq, Repr

/-- The `Client` struct's hub-relevant fields: `site *Site` (a heap id or
nil) and `send chan Message`. -/
structure Client where
  site : Option Nat
  send : SendQ
deriving DecidableEq, Repr

/-- The `Site` struct: `ID string`, `Count int`, `Connections map[*Client]bool`
(set of client ids). -/
structure Site where
  id : String
  count : Int
  conns : List Nat
deriving DecidableEq, Repr

/-- The whole mutable state the hub operations touch: the registry
`hub.sites`, the site heap, the client heap and a fresh-address counter for
newly allocated sites. -/
structure State where
  reg : String → Option Nat
  siteHeap : Nat → Option Site
  clients : Nat → Option Client
  nextSite : Nat

/-- Store a client at id `ci`. -/
def setClient (st : State) (ci : Nat) (c : Client) : State :=
  { st with clients := fun j => if j = ci then some c else st.clients j }

/-- Store a site at heap id `h`. -/
def setSite (st : State) (h : Nat) (s : Site) : State :=
  { st with siteHeap := fun j => if j = h then some s else st.siteHeap j }

/-- `delete(h.sites, key)` on the registry. -/
def regRemove (st : State) (key : String) : State :=
  { st with reg := fun k => if k = key then none else st.reg k }

/-- `delete(site.Connections, client)` on the site stored at heap id `h`. -/
def removeConn (st : State) (h : Nat) (ci : Nat) : State :=
  match st.siteHeap h with
  | none => st
  | some s => setSite st h { s with conns := s.conns.erase ci }

/-- The `update` message `broadcastToSite` constructs:
`Message{Type: "update", SiteID: siteID, Count: count, Timestamp: now}`. -/
def mkUpdate (siteID : String) (count : Int) (now : Int) : Message :=
  { type := "update", siteId := siteID, count := count, message := "",
    timestamp := now }

/-- One iteration of the broadcast loop body for member `ci`:
`select { case client.send <- message: default: delete(site.Connections,
client); close(client.send) }`. A send on a closed channel panics (`none`). -/
def bcastStep (msg : Message) (h : Nat) (st : State) (ci : Nat) :
    Option State :=
  match st.clients ci with
  | none => none
  | some cl =>
    if cl.send.closed then none
    else if cl.send.buf.length < cl.send.cap then
      some (setClient st ci
        { cl with send := { cl.send with buf := cl.send.buf ++ [msg] } })
    else
      some (setClient (removeConn st h ci) ci
        { cl with send := { cl.send with closed := true } })

/-- `Hub.broadcastToSite(siteID, count)`: build the update message, look the
site up in the registry (absent key is a silent no-op), then run the send
loop over the member list. -/
def broadcastToSite (st : State) (siteID : String) (count : Int) (now : Int) :
    Option State :=
  let msg := mkUpdate siteID count now
  match st.reg siteID with
  | none => some st
  | some h =>
    match st.siteHeap h with
    | none => none
    | some s => s.conns.foldlM (bcastStep msg h) st

/-- `Hub.handleRegister(client)`: nil site is a no-op; otherwise add the
client to `site.Connections`, increment `site.Count`, and broadcast the new
count to the site. -/
def handleRegister (st : State) (ci : Nat) (now : Int) : Option State :=
  match st.clients ci with
  | none => none
  | some cl =>
    match cl.site with
    | none => some st
    | some h =>
      match st.siteHeap h with
      | none => none
      | some s =>
        let conns2 := if ci ∈ s.conns then s.conns else s.conns ++ [ci]
        let count2 := s.count + 1
        let st1 := setSite st h { s with conns := conns2, count := count2 }
        broadcastToSite st1 s.id count2 now

/-- `Hub.handleUnregister(client)`: nil site or non-member is a no-op;
otherwise remove the client from `site.Connections`, `close(client.send)`
(panic if already closed), decrement `site.Count` clamping at zero, then
either delete the emptied site from the registry or broadcast the new count
to the remaining members. -/
def handleUnregister (st : State) (ci : Nat) (now : Int) : Option State :=
  match st.clients ci with
  | none => none
  | some cl =>
    match cl.site with
    | none => some st
    | some h =>
      match st.siteHeap h with
      | none => none
      | some s =>
        if ci ∈ s.conns then
          if cl.send.closed then none
          else
            let conns2 := s.conns.erase ci
            let count1 := s.count - 1
            let count2 := if count1 < 0 then 0 else count1
            let st1 := setSite st h { s with conns := conns2, count := count2 }
            let st2 := setClient st1 ci
              { cl with send := { cl.send with closed := true } }
            if conns2.length = 0 then
              some (regRemove st2 s.id)
            else
              broadcastToSite st2 s.id count2 now
        else some st

/-- `Hub.getSite(siteID)`: return the registered site's heap id, or allocate
a fresh `Site{ID: siteID, Count: 0, Connections: empty}`, register it and
return it. Total: it never fails. -/
def getSite (st : State) (siteID : String) : State × Nat :=
  match st.reg siteID with
  | some h => (st, h)
  | none =>
    let h := st.nextSite
    let s : Site := { id := siteID, count := 0, conns := [] }
    ({ reg := fun k => if k = siteID then some h else st.reg k,
       siteHeap := fun j => if j = h then some s else st.siteHeap j,
       clients := st.clients,
       nextSite := h + 1 }, h)

/-- `strings.TrimSpace`: drop leading and trailing whitespace. -/
def trimSpace (s : String) : String :=
  String.mk
    (((s.toList.dropWhile Char.isWhitespace).reverse.dropWhile
        Char.isWhitespace).reverse)

/-- One iteration of `Client.readPump`'s frame handling for client `ci`.
`frame = none` models a frame that fails `json.Unmarshal` (the loop
`continue`s). A well-formed frame is acted on only when `Type == "join"` and
`SiteID != ""`: the site id is whitespace-trimmed, the client first detaches
from a different current site, then (re-reading `c.site`, which detach does
not change) resolves the target site, sets `c.site` and attaches. -/
def readFrame (st : State) (ci : Nat) (frame : Option Message) (now : Int) :
    Option State :=
  match frame with
  | none => some st
  | some msg =>
    if msg.type = "join" ∧ msg.siteId ≠ "" then
      let siteID := trimSpace msg.siteId
      match st.clients ci with
      | none => none
      | some cl =>
        match cl.site with
        | none =>
          let p := getSite st siteID
          let st2 := setClient p.1 ci { cl with site := some p.2 }
          handleRegister st2 ci now
        | some h =>
          match st.siteHeap h with
          | none => none
          | some s =>
            if s.id = siteID then some st
            else
              (handleUnregister st ci now).bind fun st1 =>
                match st1.clients ci with
                | none => none
                | some cl1 =>
                  let p := getSite st1 siteID
                  let st2 := setClient p.1 ci { cl1 with site := some p.2 }
                  handleRegister st2 ci now
    else some st

/-- The JSON keys `encoding/json` emits for a `Message`, in struct order.
Every field except `Type` carries `omitempty`, so a zero `Count`, empty
`SiteID`/`Message` or zero `Timestamp` is omitted from the frame. -/
def presentFields (m : Message) : List String :=
  ["type"]
    ++ (if m.siteId = "" then [] else ["siteId"])
    ++ (if m.count = 0 then [] else ["count"])
    ++ (if m.message = "" then [] else ["message"])
    ++ (if m.timestamp = 0 then [] else ["timestamp"])

/-! ### Concrete states used in the counterexample and witness theorems -/

/-- The hub state right after `NewHub()`: no sites, no clients. -/
def emptyState : State :=
  { reg := fun _ => none, siteHeap := fun _ => none,
    clients := fun _ => none, nextSite := 0 }

/-- A freshly drained outbound channel: `make(chan Message, 16)`, open, empty. -/
def openQ : SendQ := { buf := [], cap := 16, closed := false }

/-- A full outbound channel: 16 undelivered updates in a capacity-16 buffer
(a stalled consumer whose writer task is not draining). -/
def fullQ : SendQ :=
  { buf := List.replicate 16 (mkUpdate "x" 1 0), cap := 16, closed := false }

/-- A hub with one fresh site `"s"` (count 0, no members) and one client
(id 0) targeting it whose outbound queue is already full. -/
def exRegShed : State :=
  { reg := fun k => if k = "s" then some 0 else none,
    siteHeap := fun j =>
      if j = 0 then some { id := "s", count := 0, conns := [] } else none,
    clients := fun j =>
      if j = 0 then some { site := some 0, send := fullQ } else none,
    nextSite := 1 }

/-- A site `"s"` with two members: client 1 responsive (open queue with
room), client 2 stalled (full queue). Count 2 matches the member set. -/
def exTwoMembers : State :=
  { reg := fun k => if k = "s" then some 0 else none,
    siteHeap := fun j =>
      if j = 0 then some { id := "s", count := 2, conns := [1, 2] } else none,
    clients := fun j =>
      if j = 1 then some { site := some 0, send := openQ }
      else if j = 2 then some { site := some 0, send := fullQ } else none,
    nextSite := 1 }

/-- A site `"s"` whose single member (client 2) has a full outbound queue. -/
def exLastFull : State :=
  { reg := fun k => if k = "s" then some 0 else none,
    siteHeap := fun j =>
      if j = 0 then some { id := "s", count := 1, conns := [2] } else none,
    clients := fun j =>
      if j = 2 then some { site := some 0, send := fullQ } else none,
    nextSite := 1 }

/-- Client 0 is the sole member of site `"A"` with a healthy open queue. -/
def exOnA : State :=
  { reg := fun k => if k = "A" then some 0 else none,
    siteHeap := fun j =>
      if j = 0 then some { id := "A", count := 1, conns := [0] } else none,
    clients := fun j =>
      if j = 0 then some { site := some 0, send := openQ } else none,
    nextSite := 1 }

/-- An inbound `join` frame naming site `"B"`. -/
def joinB : Message :=
  { type := "join", siteId := "B", count := 0, message := "", timestamp := 0 }

/-! ### C1 -/

/-- C1: the claimed invariant `Count = |Connections|` after every hub
operation fails on the code. Evaluating `handleRegister` on a fresh site
whose single registering client has a full outbound queue: the embedded
broadcast sheds that client from `Connections` without touching `Count`, so
the operation completes with `Count = 1` and an empty member set (and the
drift is permanent: the later unregister finds the client absent and is a
no-op). -/
theorem c1_register_shed_breaks_count_invariant :
    (handleRegister exRegShed 0 5).map (fun st => st.siteHeap 0)
      = some (some { id := "s", count := 1, conns := [] }) := rfl

/-! ### C2 -/

/-- C2: on a site with two members, one with a full queue, `broadcastToSite`
does remove exactly the stalled member (client 2) and does enqueue the
update to the other member (client 1), but the site's `Count` stays 2: the
shed is NOT reflected by a decrement, contrary to the claim. -/
theorem c2_shed_member_count_not_decremented :
    (broadcastToSite exTwoMembers "s" 2 7).map
      (fun st => (st.siteHeap 0,
                  (st.clients 1).map (fun c => c.send.buf),
                  (st.clients 2).map (fun c => c.send.closed)))
      = some (some { id := "s", count := 2, conns := [1] },
              some [mkUpdate "s" 2 7], some true) := rfl

/-! ### C3 -/

/-- C3: `broadcastToSite` on a site whose only member has a full queue sheds
that member, emptying the member set, yet the site key `"s"` is still
registered afterwards: the registry is not reclaimed in the same step,
contrary to the claim (and to spec section 4.2, which requires the emptiness
check after a broadcast shed). -/
theorem c3_broadcast_empties_site_but_leaves_it_registered :
    (broadcastToSite exLastFull "s" 1 9).map
      (fun st => ((st.siteHeap 0).map Site.conns, st.reg "s"))
      = some (some [], some 0) := rfl

/-! ### C4 -/

/-- C4: switching sites crashes instead of completing. Client 0, the sole
member of site `"A"` with a healthy open queue, sends `join "B"`: the detach
from `"A"` closes the client's send channel, the attach to `"B"` re-adds the
client with that closed channel, and the attach's own broadcast then sends
on the closed channel — a runtime panic (`none`), so no broadcast to B's
members completes normally. -/
theorem c4_switch_site_broadcast_panics :
    readFrame exOnA 0 (some joinB) 5 = none := rfl

/-! ### C8 -/

/-- C8 counterexample: the `omitempty` tag on `Count` drops the `count` key
from the serialized frame of an update message whose count is 0, so the
count field is not present for all count values as claimed. -/
theorem c8_zero_count_field_omitted :
    "count" ∉ presentFields (mkUpdate "s" 0 100) := by decide

/-- C8 (amended): the serialized frame of the update message built by
`broadcastToSite` contains the `type`, `siteId`, `count` and `timestamp`
keys whenever the site id is non-empty and the count and timestamp are
non-zero; a zero count (or empty site id, or zero timestamp) is omitted by
`omitempty`. -/
theorem c8_update_fields_present (siteID : String) (count ts : Int)
    (hs : siteID ≠ "") (hc : count ≠ 0) (ht : ts ≠ 0) :
    presentFields (mkUpdate siteID count ts)
      = ["type", "siteId", "count", "timestamp"] := by
  simp [presentFields, mkUpdate, hs, hc, ht]

/-- C8 witness: the amended statement applied at a concrete update frame. -/
theorem c8_update_fields_present_w :
    presentFields (mkUpdate "s" 3 100)
      = ["type", "siteId", "count", "timestamp"] :=
  c8_update_fields_present "s" 3 100 (by decide) (by decide) (by decide)

/-! ### Frame lemmas for the state setters and the broadcast loop -/

theorem setClient_reg (st : State) (ci : Nat) (c : Client) :
    (setClient st ci c).reg = st.reg := rfl

theorem setClient_siteHeap (st : State) (ci : Nat) (c : Client) :
    (setClient st ci c).siteHeap = st.siteHeap := rfl

theorem setClient_clients_eval (st : State) (ci : Nat) (c : Client) (j : Nat) :
    (setClient st ci c).clients j = if j = ci then some c else st.clients j :=
  rfl

theorem setSite_reg (st : State) (h : Nat) (s : Site) :
    (setSite st h s).reg = st.reg := rfl

theorem setSite_clients (st : State) (h : Nat) (s : Site) :
    (setSite st h s).clients = st.clients := rfl

theorem setSite_siteHeap_eval (st : State) (h : Nat) (s : Site) (j : Nat) :
    (setSite st h s).siteHeap j = if j = h then some s else st.siteHeap j :=
  rfl

theorem removeConn_reg (st : State) (h : Nat) (ci : Nat) :
    (removeConn st h ci).reg = st.reg := by
  unfold removeConn
  cases st.siteHeap h <;> rfl

theorem removeConn_clients (st : State) (h : Nat) (ci : Nat) :
    (removeConn st h ci).clients = st.clients := by
  unfold removeConn
  cases st.siteHeap h <;> rfl

theorem removeConn_siteHeap_eval (st : State) (h : Nat) (ci : Nat) (j : Nat) :
    (removeConn st h ci).siteHeap j =
      match st.siteHeap h with
      | none => st.siteHeap j
      | some s =>
          if j = h then some { s with conns := s.conns.erase ci }
          else st.siteHeap j := by
  unfold removeConn
  cases st.siteHeap h <;> rfl

/-- If every member of `l` has, in `st`, an open outbound queue with room,
the broadcast loop succeeds, touches no registry/site/counter state, appends
the message to each member's queue and leaves every other client alone. -/
theorem bcastLoop_all_ok (msg : Message) (h : Nat) :
    ∀ (l : List Nat) (st : State), l.Nodup →
      (∀ c ∈ l, ∃ cl, st.clients c = some cl ∧ cl.send.closed = false ∧
        cl.send.buf.length < cl.send.cap) →
      ∃ st2, l.foldlM (bcastStep msg h) st = some st2 ∧
        st2.reg = st.reg ∧ st2.siteHeap = st.siteHeap ∧
        st2.nextSite = st.nextSite ∧
        (∀ c ∈ l, ∃ cl, st.clients c = some cl ∧
          st2.clients c = some { cl with send :=
            { cl.send with buf := cl.send.buf ++ [msg] } }) ∧
        (∀ c, c ∉ l → st2.clients c = st.clients c) := by
  intro l
  induction l with
  | nil =>
    intro st _ _
    exact ⟨st, rfl, rfl, rfl, rfl, by simp, fun c _ => rfl⟩
  | cons c cs ih =>
    intro st hnd hok
    obtain ⟨cl, hcl, hclosed, hroom⟩ := hok c (by simp)
    have hstep : bcastStep msg h st c = some (setClient st c
        { cl with send := { cl.send with buf := cl.send.buf ++ [msg] } }) := by
      simp [bcastStep, hcl, hclosed, hroom]
    have hcns : c ∉ cs := (List.nodup_cons.mp hnd).1
    obtain ⟨st2, hfold, hreg, hheap, hnext, hmem, hother⟩ :=
      ih (setClient st c
          { cl with send := { cl.send with buf := cl.send.buf ++ [msg] } })
        (List.nodup_cons.mp hnd).2
        (by
          intro c2 hc2
          obtain ⟨cl2, hcl2, h1, h2⟩ := hok c2 (by simp [hc2])
          refine ⟨cl2, ?_, h1, h2⟩
          rw [setClient_clients_eval, if_neg]
          · exact hcl2
          · rintro rfl; exact hcns hc2)
    refine ⟨st2, ?_, hreg, hheap, hnext, ?_, ?_⟩
    · rw [List.foldlM_cons, hstep]
      exact hfold
    · intro c2 hc2
      rcases List.mem_cons.mp hc2 with rfl | hc2
      · refine ⟨cl, hcl, ?_⟩
        rw [hother c2 hcns, setClient_clients_eval, if_pos rfl]
      · obtain ⟨cl2, hcl2, hcl2'⟩ := hmem c2 hc2
        rw [setClient_clients_eval] at hcl2
        by_cases hcc : c2 = c
        · exact absurd (hcc ▸ hc2) hcns
        · rw [if_neg hcc] at hcl2
          exact ⟨cl2, hcl2, hcl2'⟩
    · intro c2 hc2
      have hc2c : c2 ≠ c := fun he => hc2 (he ▸ List.mem_cons_self c cs)
      have hc2cs : c2 ∉ cs := fun he => hc2 (List.mem_cons_of_mem c he)
      rw [hother c2 hc2cs, setClient_clients_eval, if_neg hc2c]

/-- One broadcast loop iteration only ever appends to a queue or sheds a
member: the registry is untouched, every client keeps its site reference,
and every site keeps its id and count while its member list only shrinks. -/
theorem bcastStep_mono (msg : Message) (h : Nat) (st : State) (c : Nat)
    (st2 : State) (hstep : bcastStep msg h st c = some st2) :
    st2.reg = st.reg ∧
    (∀ j, (st2.clients j).map Client.site = (st.clients j).map Client.site) ∧
    (∀ h2 s, st.siteHeap h2 = some s → ∃ s2, st2.siteHeap h2 = some s2 ∧
      s2.id = s.id ∧ s2.count = s.count ∧ s2.conns ⊆ s.conns) := by
  unfold bcastStep at hstep
  split at hstep
  · exact absurd hstep (by simp)
  · rename_i cl hcl
    split at hstep
    · exact absurd hstep (by simp)
    · rename_i hclosed
      split at hstep
      · obtain rfl := Option.some.inj hstep
        refine ⟨rfl, ?_, ?_⟩
        · intro j
          rw [setClient_clients_eval]
          by_cases hj : j = c
          · subst hj; rw [if_pos rfl, hcl]; rfl
          · rw [if_neg hj]
        · intro h2 s hs
          exact ⟨s, hs, rfl, rfl, fun a ha => ha⟩
      · obtain rfl := Option.some.inj hstep
        refine ⟨?_, ?_, ?_⟩
        · rw [setClient_reg, removeConn_reg]
        · intro j
          rw [setClient_clients_eval]
          by_cases hj : j = c
          · subst hj
            rw [if_pos rfl, hcl]; rfl
          · rw [if_neg hj, removeConn_clients]
        · intro h2 s hs
          rw [setClient_siteHeap, removeConn_siteHeap_eval]
          cases hh : st.siteHeap h with
          | none => exact ⟨s, hs, rfl, rfl, fun a ha => ha⟩
          | some s0 =>
            by_cases hj : h2 = h
            · subst hj
              rw [hh] at hs
              obtain rfl := Option.some.inj hs
              exact ⟨_, if_pos rfl, rfl, rfl, List.erase_subset _ _⟩
            · exact ⟨s, (if_neg hj).trans hs, rfl, rfl, fun a ha => ha⟩

/-- `bcastStep_mono` lifted to the whole broadcast loop. -/
theorem bcastLoop_mono (msg : Message) (h : Nat) :
    ∀ (l : List Nat) (st st2 : State),
      l.foldlM (bcastStep msg h) st = some st2 →
      st2.reg = st.reg ∧
      (∀ j, (st2.clients j).map Client.site
          = (st.clients j).map Client.site) ∧
      (∀ h2 s, st.siteHeap h2 = some s → ∃ s2, st2.siteHeap h2 = some s2 ∧
        s2.id = s.id ∧ s2.count = s.count ∧ s2.conns ⊆ s.conns) := by
  intro l
  induction l with
  | nil =>
    intro st st2 hfold
    obtain rfl := Option.some.inj hfold
    exact ⟨rfl, fun j => rfl, fun h2 s hs => ⟨s, hs, rfl, rfl, fun a ha => ha⟩⟩
  | cons c cs ih =>
    intro st st2 hfold
    rw [List.foldlM_cons] at hfold
    cases hstep : bcastStep msg h st c with
    | none => rw [hstep] at hfold; exact absurd hfold (by simp)
    | some st1 =>
      rw [hstep] at hfold
      obtain ⟨hreg1, hcl1, hheap1⟩ := bcastStep_mono msg h st c st1 hstep
      obtain ⟨hreg2, hcl2, hheap2⟩ := ih st1 st2 hfold
      refine ⟨hreg2.trans hreg1, fun j => (hcl2 j).trans (hcl1 j), ?_⟩
      intro h2 s hs
      obtain ⟨s1, hs1, hid1, hcount1, hsub1⟩ := hheap1 h2 s hs
      obtain ⟨s2, hs2, hid2, hcount2, hsub2⟩ := hheap2 h2 s1 hs1
      exact ⟨s2, hs2, hid2.trans hid1, hcount2.trans hcount1,
        hsub2.trans hsub1⟩

theorem regRemove_clients (st : State) (key : String) :
    (regRemove st key).clients = st.clients := rfl

theorem regRemove_siteHeap (st : State) (key : String) :
    (regRemove st key).siteHeap = st.siteHeap := rfl

/-! ### C7 -/

/-- C7: `getSite` is total (it returns, never failing), registers the key it
returns, creates a count-zero empty-member aggregate exactly when the key
was absent (touching no other registry key and no client), returns the
already-registered aggregate unchanged when present, and a second call with
the same key returns the same aggregate and changes nothing. -/
theorem c7_getSite_spec (st : State) (key : String) :
    ((getSite st key).1).reg key = some (getSite st key).2 ∧
    (st.reg key = none →
      ((getSite st key).1).siteHeap (getSite st key).2
          = some { id := key, count := 0, conns := [] } ∧
      (∀ k, k ≠ key → ((getSite st key).1).reg k = st.reg k) ∧
      ((getSite st key).1).clients = st.clients) ∧
    (∀ h0, st.reg key = some h0 → getSite st key = (st, h0)) ∧
    getSite ((getSite st key).1) key = getSite st key := by
  cases hreg : st.reg key with
  | some h =>
    simp [getSite, hreg]
  | none =>
    refine ⟨by simp [getSite, hreg], fun _ => ⟨by simp [getSite, hreg],
      fun k hk => by simp [getSite, hreg, hk], by simp [getSite, hreg]⟩,
      fun h0 h0eq => absurd h0eq (by simp), ?_⟩
    simp [getSite, hreg]

/-- C7 witness: resolving an unseen key on the empty hub registers it with a
count-zero empty aggregate, and resolving it again changes nothing. -/
theorem c7_getSite_spec_w :
    ((getSite emptyState "a").1).reg "a" = some (getSite emptyState "a").2 ∧
    ((getSite emptyState "a").1).siteHeap (getSite emptyState "a").2
        = some { id := "a", count := 0, conns := [] } ∧
    getSite ((getSite emptyState "a").1) "a" = getSite emptyState "a" :=
  ⟨(c7_getSite_spec emptyState "a").1,
   ((c7_getSite_spec emptyState "a").2.1 rfl).1,
   (c7_getSite_spec emptyState "a").2.2.2⟩

/-! ### C9 -/

/-- C9: a frame that fails JSON decoding (`none`), and any decoded frame
whose type is not `join` or whose site key is empty, leaves the reader loop
running and the entire hub/site state untouched. -/
theorem c9_invalid_or_nonjoin_frame_noop (st : State) (ci : Nat)
    (now : Int) (msg : Message) :
    readFrame st ci none now = some st ∧
    (¬ (msg.type = "join" ∧ msg.siteId ≠ "") →
      readFrame st ci (some msg) now = some st) := by
  refine ⟨rfl, fun hmsg => ?_⟩
  show (if msg.type = "join" ∧ msg.siteId ≠ "" then _ else some st) = some st
  rw [if_neg hmsg]

/-- C9 witness: a malformed frame and a decoded non-join frame on a concrete
state are both discarded with the state unchanged. -/
theorem c9_invalid_or_nonjoin_frame_noop_w :
    readFrame emptyState 0 none 3 = some emptyState ∧
    readFrame emptyState 0
        (some { type := "ping", siteId := "s", count := 0, message := "",
                timestamp := 0 }) 3 = some emptyState :=
  ⟨(c9_invalid_or_nonjoin_frame_noop emptyState 0 3
      { type := "ping", siteId := "s", count := 0, message := "",
        timestamp := 0 }).1,
   (c9_invalid_or_nonjoin_frame_noop emptyState 0 3
      { type := "ping", siteId := "s", count := 0, message := "",
        timestamp := 0 }).2 (by decide)⟩

/-! ### C10 -/

/-- C10: a `join` frame whose (whitespace-trimmed) site key equals the id of
the client's current site is a complete no-op: no detach or attach runs and
the state is returned unchanged. -/
theorem c10_join_same_site_noop (st : State) (ci : Nat) (cl : Client)
    (h : Nat) (s : Site) (msg : Message) (now : Int)
    (hcl : st.clients ci = some cl) (hsite : cl.site = some h)
    (hs : st.siteHeap h = some s)
    (hjoin : msg.type = "join") (hne : msg.siteId ≠ "")
    (hid : s.id = trimSpace msg.siteId) :
    readFrame st ci (some msg) now = some st := by
  simp [readFrame, hcl, hsite, hs, hjoin, hne, hid]

/-- C10 witness: a client on site `"s"` re-sends `join " s "` (same key up
to whitespace) and nothing changes. -/
theorem c10_join_same_site_noop_w :
    readFrame exLastFull 2
        (some { type := "join", siteId := " s ", count := 0, message := "",
                timestamp := 0 }) 3 = some exLastFull :=
  c10_join_same_site_noop exLastFull 2 { site := some 0, send := fullQ } 0
    { id := "s", count := 1, conns := [2] }
    { type := "join", siteId := " s ", count := 0, message := "",
      timestamp := 0 } 3 rfl rfl rfl rfl (by decide) (by rfl)

/-! ### C5 -/

/-- C5: `handleRegister` on a client with a nil site reference leaves the
state untouched; on a client targeting a registered site it adds the client
to the member set, increments the count by exactly one, and broadcasts the
new count to every member including the new one (here under the conditions
in which the broadcast delivers: every member's outbound queue is open with
room, so nobody is shed). -/
theorem c5_attach_spec (st : State) (ci : Nat) (cl : Client) (now : Int)
    (hcl : st.clients ci = some cl) :
    (cl.site = none → handleRegister st ci now = some st) ∧
    (∀ h s, cl.site = some h → st.siteHeap h = some s →
      st.reg s.id = some h → ci ∉ s.conns → (s.conns ++ [ci]).Nodup →
      (∀ cj ∈ s.conns ++ [ci], ∃ cj2, st.clients cj = some cj2 ∧
        cj2.send.closed = false ∧ cj2.send.buf.length < cj2.send.cap) →
      ∃ st2, handleRegister st ci now = some st2 ∧
        st2.siteHeap h = some ⟨s.id, s.count + 1, s.conns ++ [ci]⟩ ∧
        st2.reg = st.reg ∧
        (∀ cj ∈ s.conns ++ [ci], ∃ cj2, st.clients cj = some cj2 ∧
          st2.clients cj = some { cj2 with send := { cj2.send with
            buf := cj2.send.buf ++ [mkUpdate s.id (s.count + 1) now] } })) := by
  constructor
  · intro hnil
    simp [handleRegister, hcl, hnil]
  · intro h s hsite hs hreg hmem hnd hok
    have hst1heap :
        (setSite st h ⟨s.id, s.count + 1, s.conns ++ [ci]⟩).siteHeap h
          = some ⟨s.id, s.count + 1, s.conns ++ [ci]⟩ := by
      rw [setSite_siteHeap_eval, if_pos rfl]
    have hrun : handleRegister st ci now
        = broadcastToSite (setSite st h ⟨s.id, s.count + 1, s.conns ++ [ci]⟩)
            s.id (s.count + 1) now := by
      simp [handleRegister, hcl, hsite, hs, hmem]
    have h1 : (setSite st h ⟨s.id, s.count + 1, s.conns ++ [ci]⟩).reg s.id
        = some h := hreg
    have hb : broadcastToSite
          (setSite st h ⟨s.id, s.count + 1, s.conns ++ [ci]⟩)
          s.id (s.count + 1) now
        = (s.conns ++ [ci]).foldlM
            (bcastStep (mkUpdate s.id (s.count + 1) now) h)
            (setSite st h ⟨s.id, s.count + 1, s.conns ++ [ci]⟩) := by
      simp [broadcastToSite, h1, hst1heap]
    obtain ⟨st2, hfold, hreg2, hheap2, _, hmem2, _⟩ :=
      bcastLoop_all_ok (mkUpdate s.id (s.count + 1) now) h (s.conns ++ [ci])
        (setSite st h ⟨s.id, s.count + 1, s.conns ++ [ci]⟩) hnd
        (fun c2 hc2 => hok c2 hc2)
    refine ⟨st2, by rw [hrun, hb]; exact hfold, ?_, hreg2,
      fun cj hcj => hmem2 cj hcj⟩
    rw [hheap2]
    exact hst1heap

/-! ### C6 -/

/-- Unfolding of the member branch of `handleUnregister`: remove the member,
close its channel, clamp the decremented count, then registry-reclaim or
broadcast depending on whether members remain. -/
theorem handleUnregister_eq (st : State) (ci : Nat) (now : Int) (cl : Client)
    (h : Nat) (s : Site) (hcl : st.clients ci = some cl)
    (hsite : cl.site = some h) (hs : st.siteHeap h = some s)
    (hmem : ci ∈ s.conns) (hclosed : cl.send.closed = false) :
    handleUnregister st ci now =
      if (s.conns.erase ci).length = 0 then
        some (regRemove (setClient
          (setSite st h ⟨s.id, if s.count - 1 < 0 then 0 else s.count - 1,
            s.conns.erase ci⟩) ci
          ⟨cl.site, ⟨cl.send.buf, cl.send.cap, true⟩⟩) s.id)
      else
        broadcastToSite (setClient
          (setSite st h ⟨s.id, if s.count - 1 < 0 then 0 else s.count - 1,
            s.conns.erase ci⟩) ci
          ⟨cl.site, ⟨cl.send.buf, cl.send.cap, true⟩⟩) s.id
          (if s.count - 1 < 0 then 0 else s.count - 1) now := by
  simp [handleUnregister, hcl, hsite, hs, hmem, hclosed]

/-- `handleUnregister` is a no-op on a client that is not in its site's
member set. -/
theorem handleUnregister_not_member (st : State) (ci : Nat) (cl : Client)
    (h : Nat) (s : Site) (now : Int) (hcl : st.clients ci = some cl)
    (hsite : cl.site = some h) (hs : st.siteHeap h = some s)
    (hmem : ci ∉ s.conns) :
    handleUnregister st ci now = some st := by
  simp [handleUnregister, hcl, hsite, hs, hmem]

/-- C6: `handleUnregister` is a no-op both for a client with a nil site
reference and for a client that is not presently in its site's member set;
consequently a second detach right after a completed detach of the same
client changes nothing (detach twice equals detach once). -/
theorem c6_detach_noop_idempotent (st : State) (ci : Nat) (cl : Client)
    (now now2 : Int) (hcl : st.clients ci = some cl) :
    (cl.site = none → handleUnregister st ci now = some st) ∧
    (∀ h s, cl.site = some h → st.siteHeap h = some s → ci ∉ s.conns →
      handleUnregister st ci now = some st) ∧
    (∀ h s, cl.site = some h → st.siteHeap h = some s → s.conns.Nodup →
      ∀ st1, handleUnregister st ci now = some st1 →
        handleUnregister st1 ci now2 = some st1) := by
  refine ⟨fun hnil => by simp [handleUnregister, hcl, hnil],
    fun h s hsite hs hmem =>
      handleUnregister_not_member st ci cl h s now hcl hsite hs hmem, ?_⟩
  intro h s hsite hs hnd st1 hrun
  by_cases hmem : ci ∈ s.conns
  case neg =>
    have hst : st = st1 := by
      simpa [handleUnregister, hcl, hsite, hs, hmem] using hrun
    subst hst
    exact handleUnregister_not_member st ci cl h s now2 hcl hsite hs hmem
  case pos =>
    cases hclosed : cl.send.closed with
    | true =>
      exfalso
      simp [handleUnregister, hcl, hsite, hs, hmem, hclosed] at hrun
    | false =>
      rw [handleUnregister_eq st ci now cl h s hcl hsite hs hmem hclosed]
        at hrun
      have hnme : ci ∉ s.conns.erase ci := hnd.not_mem_erase
      have hA1 : (setClient
          (setSite st h ⟨s.id, if s.count - 1 < 0 then 0 else s.count - 1,
            s.conns.erase ci⟩) ci
          ⟨cl.site, ⟨cl.send.buf, cl.send.cap, true⟩⟩).clients ci
          = some ⟨cl.site, ⟨cl.send.buf, cl.send.cap, true⟩⟩ := by
        rw [setClient_clients_eval, if_pos rfl]
      have hA3 : (setClient
          (setSite st h ⟨s.id, if s.count - 1 < 0 then 0 else s.count - 1,
            s.conns.erase ci⟩) ci
          ⟨cl.site, ⟨cl.send.buf, cl.send.cap, true⟩⟩).siteHeap h
          = some ⟨s.id, if s.count - 1 < 0 then 0 else s.count - 1,
            s.conns.erase ci⟩ := by
        rw [setClient_siteHeap, setSite_siteHeap_eval, if_pos rfl]
      split at hrun
      · obtain rfl := Option.some.inj hrun
        exact handleUnregister_not_member _ ci
          ⟨cl.site, ⟨cl.send.buf, cl.send.cap, true⟩⟩ h
          ⟨s.id, if s.count - 1 < 0 then 0 else s.count - 1,
            s.conns.erase ci⟩ now2 hA1 hsite hA3 hnme
      · simp only [broadcastToSite] at hrun
        split at hrun
        · obtain rfl := Option.some.inj hrun
          exact handleUnregister_not_member _ ci
            ⟨cl.site, ⟨cl.send.buf, cl.send.cap, true⟩⟩ h
            ⟨s.id, if s.count - 1 < 0 then 0 else s.count - 1,
              s.conns.erase ci⟩ now2 hA1 hsite hA3 hnme
        · rename_i h3 hR3
          split at hrun
          · exact absurd hrun (by simp)
          · rename_i s3 hs3
            obtain ⟨hR, hC, hH⟩ := bcastLoop_mono _ h3 s3.conns _ st1 hrun
            have hCi := hC ci
            simp only [hA1, Option.map_some'] at hCi
            rw [hsite] at hCi
            obtain ⟨cl2, hcl2, hcl2site⟩ := Option.map_eq_some'.mp hCi
            obtain ⟨s2, hs2, _, _, hsub⟩ := hH h _ hA3
            have hnmem2 : ci ∉ s2.conns := fun hx => hnme (hsub hx)
            exact handleUnregister_not_member st1 ci cl2 h s2 now2 hcl2
              hcl2site hs2 hnmem2

/-- Site `"t"` with one member (client 1); client 0 targets it but is not
yet a member; both clients have open queues with room. -/
def exAttach : State :=
  { reg := fun k => if k = "t" then some 0 else none,
    siteHeap := fun j =>
      if j = 0 then some { id := "t", count := 1, conns := [1] } else none,
    clients := fun j =>
      if j = 0 then some { site := some 0, send := openQ }
      else if j = 1 then some { site := some 0, send := openQ } else none,
    nextSite := 1 }

/-- C5 witness: attaching client 0 to site `"t"` yields count 2, member set
`[1, 0]`, and the update enqueued to both members. -/
theorem c5_attach_spec_w :
    ∃ st2, handleRegister exAttach 0 5 = some st2 ∧
      st2.siteHeap 0 = some ⟨"t", 2, [1, 0]⟩ := by
  obtain ⟨st2, h1, h2, _, _⟩ :=
    (c5_attach_spec exAttach 0 { site := some 0, send := openQ } 5 rfl).2 0
      { id := "t", count := 1, conns := [1] } rfl rfl rfl (by decide)
      (by decide)
      (by
        intro cj hcj
        simp only [List.mem_append, List.mem_singleton, List.mem_cons,
          List.not_mem_nil, or_false] at hcj
        rcases hcj with rfl | rfl
        · exact ⟨{ site := some 0, send := openQ }, rfl, rfl, by decide⟩
        · exact ⟨{ site := some 0, send := openQ }, rfl, rfl, by decide⟩)
  exact ⟨st2, h1, h2⟩

/-- A hub with one connected client (0) that has not joined any site. -/
def exDetached : State :=
  { reg := fun _ => none, siteHeap := fun _ => none,
    clients := fun j =>
      if j = 0 then some { site := none, send := openQ } else none,
    nextSite := 0 }

/-- Site `"u"` with an empty member set; client 1 still references it but is
not a member (already detached). -/
def exNotMember : State :=
  { reg := fun k => if k = "u" then some 0 else none,
    siteHeap := fun j =>
      if j = 0 then some { id := "u", count := 0, conns := [] } else none,
    clients := fun j =>
      if j = 1 then some { site := some 0, send := openQ } else none,
    nextSite := 1 }

/-- C6 witness: detaching a never-joined client and re-detaching an
already-detached client both leave the state unchanged. -/
theorem c6_detach_noop_idempotent_w :
    handleUnregister exDetached 0 3 = some exDetached ∧
    handleUnregister exNotMember 1 3 = some exNotMember :=
  ⟨(c6_detach_noop_idempotent exDetached 0 { site := none, send := openQ }
      3 4 rfl).1 rfl,
   (c6_detach_noop_idempotent exNotMember 1 { site := some 0, send := openQ }
      3 4 rfl).2.1 0 { id := "u", count := 0, conns := [] } rfl rfl
      (by decide)⟩
